import Mathlib

/-!
Shallow embedding of the decision-and-validation core of the Math-Routing-Agent
repository: the input/output guardrails, the routing policy, and the
feedback/learning accumulator.  Scores that the Python code computes with
floats are modelled with `ℚ`; regular-expression scans are modelled with
executable character-list scanners that reproduce the match semantics of the
concrete patterns appearing in the source.
-/

/-- A character counts as a regex word character (`\w`): ASCII alphanumeric or
underscore. -/
def isWordChar (c : Char) : Bool := c.isAlphanum || c = '_'

/-- Python `\s` whitespace class (ASCII part). -/
def isPySpace (c : Char) : Bool :=
  c = ' ' || c = '\t' || c = '\n' || c = '\r' || c = Char.ofNat 11 || c = Char.ofNat 12

/-- Lower-cased character list of a string, modelling `re.IGNORECASE` scans
and Python `str.lower()`. -/
def lowerChars (s : String) : List Char := s.toList.map Char.toLower

/-- Maximal runs of word characters of a character list: the word tokens that
a `\b(w1|...|wk)\b` alternation can match. -/
def wordTokensAux : List Char → List Char → List (List Char)
  | [], acc => if acc.isEmpty then [] else [acc.reverse]
  | c :: cs, acc =>
    if isWordChar c then wordTokensAux cs (c :: acc)
    else if acc.isEmpty then wordTokensAux cs [] else acc.reverse :: wordTokensAux cs []

/-- Case-insensitive word tokens of a string. -/
def wordTokensCI (s : String) : List (List Char) := wordTokensAux (lowerChars s) []

/-- Case-sensitive word tokens of a string. -/
def wordTokensCS (s : String) : List (List Char) := wordTokensAux s.toList []

/-- Number of matches of `\b(w1|...|wk)\b` under `re.IGNORECASE`, where every
alternative is a single word: the tokens of the text equal to some listed
word. -/
def countWordsCI (ws : List String) (s : String) : Nat :=
  (wordTokensCI s).countP (fun t => ws.any (fun w => w.toList == t))

/-- Number of matches of a case-sensitive single-word alternation. -/
def countWordsCS (ws : List String) (s : String) : Nat :=
  (wordTokensCS s).countP (fun t => ws.any (fun w => w.toList == t))

/-- Whether `re.search` finds a word of the list in the text, ignoring case. -/
def hasWordCI (ws : List String) (s : String) : Bool :=
  (wordTokensCI s).any (fun t => ws.any (fun w => w.toList == t))

/-- Number of occurrences of characters from a class, modelling `findall` of a
character class such as `[=+\-*/]`. -/
def countCharClass (cs : List Char) (s : String) : Nat :=
  s.toList.countP (fun c => cs.contains c)

/-- Number of maximal digit runs, modelling `findall` of `\d+`. -/
def countDigitRunsAux : List Char → Bool → Nat
  | [], _ => 0
  | c :: cs, inRun =>
    if c.isDigit then (if inRun then 0 else 1) + countDigitRunsAux cs true
    else countDigitRunsAux cs false

/-- Number of maximal digit runs of a string. -/
def countDigitRuns (s : String) : Nat := countDigitRunsAux s.toList false

/-- Fuel-driven scan for non-overlapping occurrences of a literal pattern;
the fuel bounds the number of scan positions. -/
def countSublistF (pat : List Char) : Nat → List Char → Nat
  | 0, _ => 0
  | _, [] => 0
  | fuel + 1, c :: cs =>
    if pat.isPrefixOf (c :: cs) then 1 + countSublistF pat fuel (cs.drop (pat.length - 1))
    else countSublistF pat fuel cs

/-- Non-overlapping occurrences of a pattern list inside a character list,
modelling `findall` of a fixed literal with no word-boundary anchors. -/
def countSublist (pat : List Char) (l : List Char) : Nat :=
  countSublistF pat l.length l

/-- Case-insensitive non-overlapping substring count (`findall` of a literal
under `re.IGNORECASE`); the pattern is given lower-case. -/
def countSubstrCI (pat : String) (s : String) : Nat := countSublist pat.toList (lowerChars s)

/-- Case-insensitive substring search (`re.search` of a literal). -/
def containsSubstrCI (pat : String) (s : String) : Bool := 0 < countSubstrCI pat s

/-- Plain substring containment of a lower-case literal in a lower-cased text,
modelling Python `keyword in text_lower`. -/
def containsSubstr (pat : String) (s : String) : Bool := 0 < countSublist pat.toList (lowerChars s)

/-- Generic left-to-right non-overlapping scan counter.  `hit l` returns the
length of a match starting at the head of `l`, for patterns anchored by a
leading `\b` (so a match is only tried when the previous character is not a
word character, mirroring the regex engine's position scan); after a match the
scan resumes past it. -/
def countScanF (hit : List Char → Option Nat) : Nat → List Char → Bool → Nat
  | 0, _, _ => 0
  | _, [], _ => 0
  | fuel + 1, c :: cs, prevWord =>
    match (if prevWord then none else hit (c :: cs)) with
    | some n =>
        1 + countScanF hit fuel (cs.drop (n - 1)) (isWordChar (((c :: cs).take n).getLastD c))
    | none => countScanF hit fuel cs (isWordChar c)

/-- Scan counter at full fuel: one unit of fuel per scan position. -/
def countScanAux (hit : List Char → Option Nat) (l : List Char) (prevWord : Bool) : Nat :=
  countScanF hit l.length l prevWord

/-- A phrase alternation hit: try the phrases in order; a phrase matches if it
is a prefix of the remaining text and the character following it is not a word
character (the trailing `\b`, for phrases ending in a word character). -/
def phraseHit (ps : List String) (l : List Char) : Option Nat :=
  ps.findSome? fun p =>
    let pc := p.toList
    if pc.isEmpty then none
    else if pc.isPrefixOf l then
      match l.drop pc.length with
      | [] => some pc.length
      | c :: _ => if isWordChar c then none else some pc.length
    else none

/-- Matches of `\b(p1|...|pk)\b` under `re.IGNORECASE` where the alternatives
may contain spaces or apostrophes but start and end with word characters;
the phrases are given lower-case. -/
def countPhrasesCI (ps : List String) (s : String) : Nat :=
  countScanAux (phraseHit ps) (lowerChars s) false

/-- Whether `re.search` of such a phrase alternation succeeds. -/
def hasPhraseCI (ps : List String) (s : String) : Bool := 0 < countPhrasesCI ps s

/-- Dropping a prefix by predicate never lengthens a list (termination
helper for the scanners below). -/
theorem dropWhile_length_le {α : Type} (p : α → Bool) (l : List α) :
    (l.dropWhile p).length ≤ l.length := by
  induction l with
  | nil => simp
  | cons c cs ih =>
    by_cases h : p c
    · simp only [List.dropWhile, h]
      exact Nat.le_succ_of_le ih
    · simp [List.dropWhile, h]

/-- Scan for a newline-free occurrence of a literal: true when the pattern
occurs before any `'\n'`, modelling the tail `.*?lit` of a non-DOTALL regex. -/
def hitBeforeNewline (pat : List Char) : List Char → Bool
  | [] => false
  | c :: cs =>
    if pat.isPrefixOf (c :: cs) then true
    else if c = '\n' then false
    else hitBeforeNewline pat cs

/-- Whether `re.search` of `<script.*?>.*?</script>` (IGNORECASE, no DOTALL)
succeeds on the lower-cased text: some position starts `<script`, a `>`
follows on the same line, and `</script>` follows that on the same line. -/
def scriptTagAfterOpen (rest : List Char) : Bool :=
  let line := rest.takeWhile (fun c => c ≠ '\n')
  (List.range line.length).any fun j =>
    line.getD j ' ' = '>' && hitBeforeNewline "</script>".toList (rest.drop (j + 1))

/-- Search for the full script-tag injection pattern in a character list. -/
def scriptTagSearch : List Char → Bool
  | [] => false
  | c :: cs =>
    ("<script".toList.isPrefixOf (c :: cs) && scriptTagAfterOpen (cs.drop 6))
      || scriptTagSearch cs

/-- Length consumed from after a `$$` opener up to and including the nearest
same-line closing `$$`, if any (the lazy `.*?\$\$` tail). -/
def spanToClose : List Char → Nat → Option Nat
  | [], _ => none
  | c :: cs, acc =>
    if ("$$".toList.isPrefixOf (c :: cs)) then some (acc + 2)
    else if c = '\n' then none
    else spanToClose cs (acc + 1)

/-- Fuel-driven scan for `\$\$.*?\$\$` matches. -/
def countLatexF : Nat → List Char → Nat
  | 0, _ => 0
  | _, [] => 0
  | fuel + 1, c :: cs =>
    if ("$$".toList.isPrefixOf (c :: cs)) then
      match spanToClose (cs.drop 1) 0 with
      | some n => 1 + countLatexF fuel (cs.drop (1 + n))
      | none => countLatexF fuel cs
    else countLatexF fuel cs

/-- Non-overlapping matches of `\$\$.*?\$\$` (no DOTALL): a `$$` opener
closed by the nearest `$$` on the same line. -/
def countLatexAux (l : List Char) : Nat := countLatexF l.length l

/-- Matches of `\$\$.*?\$\$` in a string. -/
def countLatex (s : String) : Nat := countLatexAux s.toList

/-- Non-overlapping matches of `_\w+`: an underscore followed by at least one
word character, consuming the whole word-character run. -/
def countUnderscoreRunsF : Nat → List Char → Nat
  | 0, _ => 0
  | _, [] => 0
  | fuel + 1, c :: cs =>
    if c = '_' then
      match cs with
      | [] => 0
      | d :: ds =>
        if isWordChar d then 1 + countUnderscoreRunsF fuel (ds.dropWhile isWordChar)
        else countUnderscoreRunsF fuel (d :: ds)
    else countUnderscoreRunsF fuel cs

/-- Non-overlapping matches of `_\w+` at full fuel. -/
def countUnderscoreRuns (l : List Char) : Nat := countUnderscoreRunsF l.length l

/-- Non-overlapping matches of `step \d+` under IGNORECASE (no word-boundary
anchors in the source pattern): the literal `step ` followed by a maximal
digit run. -/
def countStepNumF : Nat → List Char → Nat
  | 0, _ => 0
  | _, [] => 0
  | fuel + 1, c :: cs =>
    if ("step ".toList.isPrefixOf (c :: cs))
        && (match cs.drop 4 with | [] => false | d :: _ => d.isDigit) then
      1 + countStepNumF fuel ((cs.drop 4).dropWhile Char.isDigit)
    else countStepNumF fuel cs

/-- Non-overlapping matches of `step \d+` at full fuel. -/
def countStepNumAux (l : List Char) : Nat := countStepNumF l.length l

/-- Matches of `step \d+` in a string, ignoring case. -/
def countStepNum (s : String) : Nat := countStepNumAux (lowerChars s)

/-- Whether `re.search(r'step \d+', s, re.IGNORECASE)` succeeds. -/
def hasStepNum (s : String) : Bool := 0 < countStepNum s

/-- Configured maximum input length (`settings.max_input_length`). -/
def maxInputLength : Nat := 1000

/-- Configured maximum output length (`settings.max_output_length`). -/
def maxOutputLength : Nat := 2000

/-- Configured topic allow-list (`settings.allowed_topics`). -/
def allowedTopics : List String :=
  ["mathematics", "algebra", "calculus", "geometry", "statistics", "trigonometry"]

/-- Word alternation of the input guardrail's harmful-pattern deny-list. -/
def inputHarmfulWords : List String :=
  ["hack", "exploit", "bypass", "cheat", "illegal", "harmful", "dangerous"]

/-- Word alternation of the output guardrail's inappropriate-pattern
deny-list. -/
def outputInappropriateWords : List String :=
  ["cheat", "hack", "illegal", "harmful", "dangerous"]

/-- The three injection patterns shared verbatim by both deny-lists:
`<script.*?>.*?</script>`, `javascript:` and `data:text/html`. -/
def injectionMatch (s : String) : Bool :=
  scriptTagSearch (lowerChars s) || containsSubstrCI "javascript:" s
    || containsSubstrCI "data:text/html" s

/-- Whether the input deny-list fires on a text (`potentially_harmful_patterns`
of `InputGuardrails`). -/
def inputDenyMatch (s : String) : Bool :=
  hasWordCI inputHarmfulWords s || injectionMatch s

/-- Whether the output deny-list fires on a text (`inappropriate_patterns` of
`OutputGuardrails`). -/
def outputDenyMatch (s : String) : Bool :=
  hasWordCI outputInappropriateWords s || injectionMatch s

/-- Split a character list into maximal runs of non-whitespace characters. -/
def wsTokensAux : List Char → List Char → List (List Char)
  | [], acc => if acc.isEmpty then [] else [acc.reverse]
  | c :: cs, acc =>
    if isPySpace c then
      (if acc.isEmpty then wsTokensAux cs [] else acc.reverse :: wsTokensAux cs [])
    else wsTokensAux cs (c :: acc)

/-- `_sanitize_input` / `_sanitize_output` (identical in the source): drop the
characters `<ANGLE> " '`, replace each whitespace run by a single space, and
strip the ends. -/
def sanitizeText (s : String) : String :=
  let kept := s.toList.filter (fun c => !(c = '<' || c = '>' || c = '"' || c = '\''))
  String.intercalate " " ((wsTokensAux kept []).map (fun t => String.mk t))

/-- The six weighted pattern categories of `_calculate_math_score`: findall
counts under IGNORECASE. -/
def mathPatternCounts (s : String) : List Nat :=
  [ countWordsCI ["solve", "calculate", "find", "compute", "evaluate",
      "integrate", "differentiate", "derive"] s,
    countWordsCI ["equation", "formula", "function", "matrix", "vector",
      "limit", "derivative", "integral"] s,
    countWordsCI ["algebra", "calculus", "geometry", "trigonometry",
      "statistics", "probability"] s,
    countCharClass ['+', '-', '*', '/', '=', '<', '>', '(', ')',
      '{', '}', '[', ']', '^'] s,
    countDigitRuns s,
    countWordsCI ["x", "y", "z", "a", "b", "c", "d", "e", "f", "g", "h", "i",
      "j", "k", "l", "m", "n", "o", "p", "q", "r", "s", "t", "u", "v", "w"] s ]

/-- `_calculate_math_score`: each category contributes `min(count/10, 1)`,
the sum is divided by the number of categories and capped at 1. -/
def calculateMathScore (s : String) : ℚ :=
  let contributions := (mathPatternCounts s).map (fun n => min ((n : ℚ) / 10) 1)
  min (contributions.sum / 6) 1

/-- The topic keyword table of `_detect_math_topic`, in iteration order. -/
def topicKeywordTable : List (String × List String) :=
  [ ("algebra", ["equation", "variable", "solve", "factor", "polynomial"]),
    ("calculus", ["derivative", "integral", "limit", "differentiate", "integrate"]),
    ("geometry", ["triangle", "circle", "angle", "area", "perimeter", "volume"]),
    ("trigonometry", ["sin", "cos", "tan", "angle", "trigonometric"]),
    ("statistics", ["mean", "median", "mode", "probability", "distribution"]),
    ("linear_algebra", ["matrix", "vector", "determinant", "eigenvalue"]) ]

/-- Keyword hit count of one topic on the lower-cased text (substring
containment, as `keyword in text_lower`). -/
def topicHitCount (kws : List String) (s : String) : Nat :=
  kws.countP (fun kw => containsSubstr kw s)

/-- Python `max(topic_scores, key=topic_scores.get)`: the first key attaining
the maximal value in iteration order. -/
def firstArgmax (x : String × Nat) : List (String × Nat) → String
  | [] => x.1
  | y :: ys => if x.2 < y.2 then firstArgmax y ys else firstArgmax x ys

/-- `_detect_math_topic`: score every topic of the fixed table by keyword
hits and return the first topic attaining the maximal score; the `general`
fallback of the source is only reached when the table is empty. -/
def detectMathTopic (s : String) : String :=
  let scores := topicKeywordTable.map (fun p => (p.1, topicHitCount p.2 s))
  match scores with
  | [] => "general"
  | x :: xs => firstArgmax x xs

/-- Result record of `validate_input` (`InputValidationResult`). -/
structure InputValidationResult where
  isValid : Bool
  sanitizedInput : String
  confidenceScore : ℚ
  detectedTopic : String
  warnings : List String
deriving Repr, DecidableEq

/-- `InputGuardrails.validate_input`: hard-reject on length overflow or a
deny-list hit, otherwise sanitize, score math-likelihood, classify the topic
(only when the score exceeds 0.3), and attach advisory warnings. -/
def validateInput (userInput : String) : InputValidationResult :=
  if maxInputLength < userInput.length then
    { isValid := false, sanitizedInput := "", confidenceScore := 0,
      detectedTopic := "",
      warnings := ["Input too long. Maximum 1000 characters allowed."] }
  else if inputDenyMatch userInput then
    { isValid := false, sanitizedInput := "", confidenceScore := 0,
      detectedTopic := "",
      warnings := ["Potentially harmful content detected."] }
  else
    let sanitized := sanitizeText userInput
    let mathScore := calculateMathScore sanitized
    let conf : ℚ := if 3 / 10 < mathScore then mathScore else 1 / 10
    let topic := if 3 / 10 < mathScore then detectMathTopic sanitized else "general"
    let warns1 : List String :=
      if 3 / 10 < mathScore then [] else ["Input may not be mathematical in nature."]
    let warns2 : List String :=
      if !allowedTopics.contains topic && topic ≠ "general" then
        warns1 ++ ["Topic '" ++ topic ++ "' may not be supported."]
      else warns1
    { isValid := true, sanitizedInput := sanitized, confidenceScore := conf,
      detectedTopic := topic, warnings := warns2 }

/-- Hit function for the first quality indicator
`\b(step \d+:|first|second|third|next|finally)\b`: the `step \d+:` branch ends
in a colon, so its trailing boundary only holds when a word character follows
the colon; the single-word branches carry an ordinary trailing boundary. -/
def qi1Hit (l : List Char) : Option Nat :=
  let stepBranch : Option Nat :=
    if "step ".toList.isPrefixOf l then
      let digs := (l.drop 5).takeWhile Char.isDigit
      if digs.isEmpty then none
      else
        match l.drop (5 + digs.length) with
        | ':' :: c :: _ => if isWordChar c then some (5 + digs.length + 1) else none
        | _ => none
    else none
  match stepBranch with
  | some n => some n
  | none => phraseHit ["first", "second", "third", "next", "finally"] l

/-- Matches of the first quality indicator in a string, ignoring case. -/
def countQuality1 (s : String) : Nat := countScanAux qi1Hit (lowerChars s) false

/-- `_calculate_confidence_score` of the output guardrail: five quality
indicators capped at 0.3 each, a mathematical-content density capped at 0.4,
and a step-structure density capped at 0.3; total capped at 1.  The question
argument is accepted but unused, as in the source. -/
def calculateConfidenceScore (response : String) (_question : String) : ℚ :=
  let quality : List Nat :=
    [ countQuality1 response,
      countWordsCI ["therefore", "thus", "hence", "so", "because", "since"] response,
      countPhrasesCI ["we have", "we get", "we obtain", "we find"] response,
      countCharClass ['=', '+', '-', '*', '/'] response,
      countLatex response ]
  let qualityScore := (quality.map (fun n => min ((n : ℚ) / 10) (3 / 10))).sum
  let mathCount :=
    countCharClass ['=', '+', '-', '*', '/'] response + countDigitRuns response
      + countWordsCS ["x", "y", "z", "a", "b", "c"] response
  let stepCount :=
    countStepNum response + countSubstrCI "first" response
      + countSubstrCI "second" response + countSubstrCI "third" response
      + countSubstrCI "next" response + countSubstrCI "finally" response
  min (qualityScore + min ((mathCount : ℚ) / 20) (2 / 5)
        + min ((stepCount : ℚ) / 10) (3 / 10)) 1

/-- `_calculate_educational_value`: explanatory-connective densities capped at
0.3 each, symbol density capped at 0.4, and a 0.3 bonus for an explicit
`step N` marker; total capped at 1. -/
def calculateEducationalValue (response : String) : ℚ :=
  let explain : List Nat :=
    [ countWordsCI ["because", "since", "therefore", "thus", "hence", "so"] response,
      countPhrasesCI ["we have", "we get", "we obtain", "we find", "we can see"] response,
      countPhrasesCI ["let's", "let us", "first", "second", "third"] response ]
  let explainScore := (explain.map (fun n => min ((n : ℚ) / 10) (3 / 10))).sum
  let symCount :=
    countLatex response + countCharClass ['=', '+', '-', '*', '/'] response
      + countCharClass ['^'] response + countUnderscoreRuns response.toList
  let withSyms := explainScore + min ((symCount : ℚ) / 20) (2 / 5)
  let withBonus := if hasStepNum response then withSyms + 3 / 10 else withSyms
  min withBonus 1

/-- `_check_required_elements`: the structural elements whose markers are
absent, in source order. -/
def missingElements (response : String) : List String :=
  (if !hasStepNum response then ["step-by-step solution"] else [])
    ++ (if !hasWordCI ["because", "since", "therefore", "thus", "hence"] response then
          ["mathematical reasoning"] else [])
    ++ (if !hasWordCI ["answer", "result", "solution", "final"] response then
          ["final answer"] else [])

/-- `_validate_mathematical_content`: warnings for missing operators, missing
numbers/variables (case-sensitive scan), and unbalanced parentheses. -/
def mathContentWarnings (response : String) : List String :=
  (if countCharClass ['=', '+', '-', '*', '/'] response = 0 then
      ["No mathematical operations found"] else [])
    ++ (if countDigitRuns response = 0 && countWordsCS ["x", "y", "z", "a", "b", "c"] response = 0 then
          ["No mathematical variables or numbers found"] else [])
    ++ (if countCharClass ['('] response ≠ countCharClass [')'] response then
          ["Unbalanced parentheses in mathematical expressions"] else [])

/-- Result record of `validate_output` (`OutputValidationResult`). -/
structure OutputValidationResult where
  isValid : Bool
  sanitizedOutput : String
  confidenceScore : ℚ
  educationalValue : ℚ
  warnings : List String
deriving Repr, DecidableEq

/-- `OutputGuardrails.validate_output`: hard-reject on length overflow or a
deny-list hit (empty sanitized output in both cases), otherwise sanitize,
score confidence and educational value, collect advisory warnings, and accept
exactly when both scores exceed the 0.1 floor. -/
def validateOutput (response : String) (originalQuestion : String) : OutputValidationResult :=
  if maxOutputLength < response.length then
    { isValid := false, sanitizedOutput := "", confidenceScore := 0,
      educationalValue := 0,
      warnings := ["Response too long. Maximum 2000 characters allowed."] }
  else if outputDenyMatch response then
    { isValid := false, sanitizedOutput := "", confidenceScore := 0,
      educationalValue := 0,
      warnings := ["Inappropriate content detected in response."] }
  else
    let sanitized := sanitizeText response
    let conf := calculateConfidenceScore sanitized originalQuestion
    let edu := calculateEducationalValue sanitized
    let warns :=
      (missingElements sanitized).map (fun e => "Missing: " ++ e)
        ++ mathContentWarnings sanitized
    { isValid := (1 / 10 < conf : Bool) && (1 / 10 < edu : Bool),
      sanitizedOutput := sanitized, confidenceScore := conf,
      educationalValue := edu, warnings := warns }

/-- The six complexity-indicator alternations of
`_assess_question_complexity`, in source order. -/
def complexityIndicatorLists : List (List String) :=
  [ ["prove", "derive", "show that", "demonstrate"],
    ["integral", "derivative", "limit", "series", "convergence"],
    ["matrix", "vector", "eigenvalue", "determinant"],
    ["probability", "distribution", "hypothesis", "statistical"],
    ["optimization", "constraint", "lagrange", "calculus of variations"],
    ["complex", "imaginary", "real analysis", "topology"] ]

/-- `_assess_question_complexity`: 0.2 per matching indicator category, plus
a bonus of 0.1 per generic math-object noun capped at 0.3, total capped
at 1. -/
def assessQuestionComplexity (question : String) : ℚ :=
  let indicatorScore : ℚ :=
    ((complexityIndicatorLists.filter (fun ps => hasPhraseCI ps question)).length : ℚ) / 5
  let mathConcepts :=
    countWordsCI ["equation", "function", "formula", "theorem", "lemma"] question
  min (indicatorScore + min ((mathConcepts : ℚ) / 10) (3 / 10)) 1

/-- The three terminal routing decisions (`RouteDecision`). -/
inductive RouteDecision where
  | knowledgeBase
  | webSearch
  | reject
deriving Repr, DecidableEq

/-- Payload of one ranked knowledge-base candidate: the similarity score and
the stored record used for response assembly. -/
structure KBContent where
  answer : String
  solutionStepsText : Option String
  solutionStepsList : List String
  explanation : String
deriving Repr, DecidableEq

/-- One ranked candidate returned by the knowledge-base backend. -/
structure KBResult where
  score : ℚ
  content : KBContent
deriving Repr, DecidableEq

/-- `RoutingResult`: decision, confidence, reasoning, source and the optional
candidate payload. -/
structure RoutingResult where
  decision : RouteDecision
  confidence : ℚ
  reasoning : String
  source : String
  data : Option (List KBResult)
deriving Repr, DecidableEq

/-- Decision logic of `_make_routing_decision` over the ranked candidates
bound to its local `kb_results`: a top score above 0.8 selects the knowledge
base at that confidence; otherwise a top score above 0.5 selects the
knowledge base at that confidence when the question's complexity is below
0.6; every other case selects web search at the fixed confidence 0.7. -/
def routeFromResults (kbResults : List KBResult) (question : String) : RoutingResult :=
  match kbResults with
  | [] =>
    { decision := .webSearch, confidence := 7 / 10,
      reasoning := "Question requires web search for comprehensive answer",
      source := "web_search", data := none }
  | top :: rest =>
    if 8 / 10 < top.score then
      { decision := .knowledgeBase, confidence := top.score,
        reasoning := "High confidence match found in knowledge base",
        source := "knowledge_base", data := some (top :: rest) }
    else if 1 / 2 < top.score ∧ assessQuestionComplexity question < 3 / 5 then
      { decision := .knowledgeBase, confidence := top.score,
        reasoning := "Moderate match in knowledge base for simple question",
        source := "knowledge_base", data := some (top :: rest) }
    else
      { decision := .webSearch, confidence := 7 / 10,
        reasoning := "Question requires web search for comprehensive answer",
        source := "web_search", data := none }

/-- `_make_routing_decision`: query the knowledge-base backend with the raw
question and decide from the ranked candidates. -/
def makeRoutingDecision (search : String → List KBResult) (question : String) : RoutingResult :=
  routeFromResults (search question) question

/-- The final structured response (`MathResponse`). -/
structure MathResponse where
  question : String
  answer : String
  solutionSteps : List String
  explanation : String
  source : String
  confidence : ℚ
  sessionId : String
  timestamp : String
deriving Repr, DecidableEq

/-- One document returned by the web-search backend. -/
structure WebDoc where
  title : String
  url : String
  content : String
  score : ℚ
deriving Repr, DecidableEq

/-- Outcome of one generative-model call (`generate_math_response`). -/
structure GeminiOutcome where
  success : Bool
  response : String
  confidence : ℚ
deriving Repr, DecidableEq

/-- `_generate_kb_response`: assemble the response from the top candidate's
stored record; a textual `solution_steps` field is split on line breaks.
Returns `none` when the routing payload is missing or empty, which in the
source raises and is converted to the generic failure by the boundary
handler. -/
def generateKbResponse (question : String) (routing : RoutingResult)
    (sessionId timestamp : String) : Option MathResponse :=
  match routing.data with
  | some (top :: _) =>
    let steps :=
      match top.content.solutionStepsText with
      | some t => t.splitOn "\n"
      | none => top.content.solutionStepsList
    some { question := question, answer := top.content.answer,
           solutionSteps := steps, explanation := top.content.explanation,
           source := "knowledge_base", confidence := routing.confidence,
           sessionId := sessionId, timestamp := timestamp }
  | _ => none

/-- The fixed apology answer of the zero-document web branch. -/
def apologyAnswer : String :=
  "I apologize, but I couldn't find a suitable solution for your question. Please try rephrasing or providing more specific details."

/-- `_generate_web_response`: with zero documents, return the fixed apology
response with confidence 0 before any generative-model call; otherwise join
the snippets, call the model, and on success extract steps and answer from
the completion, else fall back to the local extraction heuristics with
confidence `min(0.8, 0.2 x number of documents)`.  The second component
records whether the generative model was called. -/
def generateWebResponse (webDocs : List WebDoc)
    (gemini : String → String → GeminiOutcome)
    (geminiExtractSteps : String → List String)
    (geminiExtractAnswer : String → String)
    (localExtractSteps : List String → List String)
    (localExtractAnswer : List String → String)
    (localExplanation : List String → String)
    (question sessionId timestamp : String) : MathResponse × Bool :=
  match webDocs with
  | [] =>
    ({ question := question, answer := apologyAnswer,
       solutionSteps := ["Unable to find solution"],
       explanation := "No relevant mathematical content found in web search",
       source := "web_search", confidence := 0,
       sessionId := sessionId, timestamp := timestamp }, false)
  | docs =>
    let combined := docs.map (fun d => d.content)
    let context := String.intercalate " " combined
    let g := gemini question context
    if g.success then
      ({ question := question, answer := geminiExtractAnswer g.response,
         solutionSteps := geminiExtractSteps g.response,
         explanation := g.response, source := "web_search",
         confidence := g.confidence,
         sessionId := sessionId, timestamp := timestamp }, true)
    else
      ({ question := question, answer := localExtractAnswer combined,
         solutionSteps := localExtractSteps combined,
         explanation := localExplanation combined, source := "web_search",
         confidence := min (8 / 10) ((docs.length : ℚ) / 5),
         sessionId := sessionId, timestamp := timestamp }, true)

/-- The dictionary returned by `process_question`, reduced to the fields the
pipeline computes: the success flag, the error message of a failure, the
response payload, and the routing information echoed to the caller. -/
structure ProcessResult where
  success : Bool
  error : Option String
  response : Option MathResponse
  routingDecision : Option RouteDecision
  routingConfidence : Option ℚ
  outputWarnings : List String
deriving Repr, DecidableEq

/-- `MathRoutingAgent.process_question`: validate the input, decide the
route, generate the response from the selected backend, validate the output,
and prefer the sanitized answer only when sanitization produced text.  The
backends (knowledge-base search, web search, generative model and its two
extraction prompts) and the local fallback extractors are explicit function
parameters. -/
def processQuestion (kbSearch : String → List KBResult)
    (webSearch : String → List WebDoc)
    (gemini : String → String → GeminiOutcome)
    (geminiExtractSteps : String → List String)
    (geminiExtractAnswer : String → String)
    (localExtractSteps : List String → List String)
    (localExtractAnswer : List String → String)
    (localExplanation : List String → String)
    (sessionId timestamp : String) (question : String) : ProcessResult :=
  let iv := validateInput question
  if !iv.isValid then
    { success := false, error := some "Input validation failed",
      response := none, routingDecision := none, routingConfidence := none,
      outputWarnings := [] }
  else
    let routing := makeRoutingDecision kbSearch question
    if routing.decision = .reject then
      { success := false, error := some "Question rejected",
        response := none, routingDecision := some routing.decision,
        routingConfidence := some routing.confidence, outputWarnings := [] }
    else
      let generated : Option MathResponse :=
        if routing.decision = .knowledgeBase then
          generateKbResponse question routing sessionId timestamp
        else
          some (generateWebResponse (webSearch question) gemini
            geminiExtractSteps geminiExtractAnswer localExtractSteps
            localExtractAnswer localExplanation question sessionId timestamp).1
      match generated with
      | none =>
        { success := false, error := some "Processing failed", response := none,
          routingDecision := none, routingConfidence := none,
          outputWarnings := [] }
      | some resp =>
        let ov := validateOutput resp.answer question
        let finalAnswer :=
          if ov.sanitizedOutput ≠ "" then ov.sanitizedOutput else resp.answer
        { success := true, error := none,
          response := some { resp with answer := finalAnswer },
          routingDecision := some routing.decision,
          routingConfidence := some routing.confidence,
          outputWarnings := ov.warnings }

/-- One record of the feedback store (`FeedbackData`). -/
structure FeedbackData where
  question : String
  response : String
  userRating : ℤ
  userComments : String
  timestamp : String
  sessionId : String
deriving Repr, DecidableEq

/-- Acknowledgement returned by `collect_feedback`. -/
structure CollectAck where
  feedbackId : Nat
  rating : ℤ
deriving Repr, DecidableEq

/-- `MathFeedbackCollector.collect_feedback`: append the record to the
history and acknowledge with the new history length. -/
def collectFeedback (history : List FeedbackData) (question response : String)
    (rating : ℤ) (comments sessionId timestamp : String) :
    List FeedbackData × CollectAck :=
  let fd : FeedbackData :=
    { question := question, response := response, userRating := rating,
      userComments := comments, timestamp := timestamp, sessionId := sessionId }
  let newHistory := history ++ [fd]
  (newHistory, { feedbackId := newHistory.length, rating := rating })

/-- The dictionary returned by `get_feedback_summary`; the distribution and
recent-feedback keys are absent from the empty-history result. -/
structure FeedbackSummary where
  totalFeedback : Nat
  averageRating : ℚ
  ratingDistribution : Option (List (ℤ × Nat))
  recentFeedback : Option (List FeedbackData)
deriving Repr, DecidableEq

/-- `get_feedback_summary`: count, arithmetic mean of the ratings, the
per-value histogram over 1..5, and the last five records. -/
def getFeedbackSummary (history : List FeedbackData) : FeedbackSummary :=
  if history.isEmpty then
    { totalFeedback := 0, averageRating := 0, ratingDistribution := none,
      recentFeedback := none }
  else
    let ratings : List ℤ := history.map (fun f => f.userRating)
    { totalFeedback := history.length,
      averageRating := ((ratings.sum : ℤ) : ℚ) / (ratings.length : ℚ),
      ratingDistribution :=
        some ([1, 2, 3, 4, 5].map (fun v => ((v : ℤ), ratings.count (v : ℤ)))),
      recentFeedback := some (history.drop (history.length - 5)) }

/-- Outcome of parsing the persisted feedback log: well-formed data, a JSON
decode error, or well-formed JSON whose items fail record construction. -/
inductive LogParse where
  | ok (records : List FeedbackData)
  | badJson
  | badItems
deriving Repr, DecidableEq

/-- Python `str.strip()` (ASCII whitespace). -/
def pyStrip (s : String) : String :=
  String.mk (((s.toList.dropWhile isPySpace).reverse.dropWhile isPySpace).reverse)

/-- `_load_feedback_history` over an abstract file state (`none` = the log
file is missing) and an abstract JSON reader standing for `json.loads`
followed by `FeedbackData(**item)`.  The second component is the content
rewritten to the log, `none` when nothing is written: a missing, empty or
malformed log is reset to the empty JSON array `[]` and yields an empty
history; a decode-clean log with bad items yields an empty history through
the outer exception handler without a rewrite. -/
def loadFeedbackHistory (file : Option String)
    (parse : String → LogParse) : List FeedbackData × Option String :=
  match file with
  | none => ([], some "[]")
  | some contents =>
    let raw := pyStrip contents
    if raw = "" then ([], some "[]")
    else
      match parse raw with
      | .badJson => ([], some "[]")
      | .ok records => (records, none)
      | .badItems => ([], none)

/-- Scores produced by `evaluate_response` of the response evaluator. -/
structure Evaluation where
  accuracy : ℚ
  clarity : ℚ
  completeness : ℚ
  overallScore : ℚ
  evaluationText : String
  needsImprovement : List String
deriving Repr, DecidableEq

/-- One entry of the learning system's in-memory sequence.  The Python entry
dictionary carries question, response, rating, comments, evaluation,
timestamp and session id; it never receives an `improvements` key, which is
modelled by the optional field defaulting to `none` (so `entry.get` with an
empty-list default reads `improvements.getD []`). -/
structure LearningEntry where
  question : String
  response : String
  userRating : ℤ
  userComments : String
  evaluation : Evaluation
  timestamp : String
  sessionId : String
  improvements : Option (List String) := none
deriving Repr, DecidableEq

/-- First-occurrence deduplication, modelling Python's
`list(set(...))` (whose iteration order the source does not rely on). -/
def dedupFirst : List String → List String
  | [] => []
  | x :: xs => x :: (dedupFirst xs).filter (fun y => y ≠ x)

/-- `_generate_improvements`: fixed tags for a rating of at most 2, one tag
per evaluator sub-score below 0.7, and one tag per keyword found in the
lower-cased user comments, deduplicated. -/
def generateImprovements (userRating : ℤ) (eval : Evaluation)
    (userComments : String) : List String :=
  let fromRating := if userRating ≤ 2 then ["improve_accuracy", "add_more_explanations"] else []
  let fromScores :=
    (if eval.accuracy < 7 / 10 then ["verify_mathematical_correctness"] else [])
      ++ (if eval.clarity < 7 / 10 then ["simplify_explanations"] else [])
      ++ (if eval.completeness < 7 / 10 then ["add_more_steps"] else [])
  let fromComments :=
    (if containsSubstr "confusing" userComments then ["improve_clarity"] else [])
      ++ (if containsSubstr "incomplete" userComments then ["add_more_details"] else [])
      ++ (if containsSubstr "wrong" userComments then ["verify_solution"] else [])
  dedupFirst (fromRating ++ fromScores ++ fromComments)

/-- State of `MathLearningSystem`: the feedback collector's history and the
learning-data sequence. -/
structure LearningSystemState where
  feedbackHistory : List FeedbackData
  learningData : List LearningEntry
deriving Repr, DecidableEq

/-- `process_feedback`: collect the feedback, evaluate the response with the
evaluator (an explicit function parameter standing for
`MathResponseEvaluator.evaluate_response`), append a learning entry — without
an `improvements` key — and return the generated improvement suggestions. -/
def processFeedback (evalFn : String → String → Evaluation)
    (st : LearningSystemState) (question response : String) (userRating : ℤ)
    (userComments sessionId timestamp : String) :
    LearningSystemState × Evaluation × List String :=
  let (newHistory, _ack) :=
    collectFeedback st.feedbackHistory question response userRating
      userComments sessionId timestamp
  let eval := evalFn question response
  let entry : LearningEntry :=
    { question := question, response := response, userRating := userRating,
      userComments := userComments, evaluation := eval,
      timestamp := timestamp, sessionId := sessionId }
  (⟨newHistory, st.learningData ++ [entry]⟩, eval,
    generateImprovements userRating eval userComments)

/-- Tally of improvement tags in first-seen order, modelling the insertion
order of the Python counting dictionary. -/
def tallyTags : List String → List (String × Nat) → List (String × Nat)
  | [], acc => acc
  | t :: ts, acc =>
    if acc.any (fun p => p.1 = t) then
      tallyTags ts (acc.map (fun p => if p.1 = t then (p.1, p.2 + 1) else p))
    else tallyTags ts (acc ++ [(t, 1)])

/-- Stable insertion into a count-descending list: the new pair goes before
the first strictly smaller count, after equal ones seen earlier. -/
def insertByCountDesc (x : String × Nat) : List (String × Nat) → List (String × Nat)
  | [] => [x]
  | y :: ys => if y.2 < x.2 then x :: y :: ys else y :: insertByCountDesc x ys

/-- Stable sort by descending count, modelling Python's
`sorted(..., key=count, reverse=True)`. -/
def sortByCountDesc : List (String × Nat) → List (String × Nat)
  | [] => []
  | x :: xs => insertByCountDesc x (sortByCountDesc xs)

/-- The trend dictionary of `_analyze_recent_trends`; the rating statistics
are absent from the insufficient-data result. -/
structure TrendResult where
  trend : String
  recentAvgRating : Option ℚ
  previousAvgRating : Option ℚ
  change : Option ℚ
deriving Repr, DecidableEq

/-- Mean user rating of the most recent five learning entries. -/
def recentAvgRating (ld : List LearningEntry) : ℚ :=
  let recent := ld.drop (ld.length - 5)
  ((recent.map (fun e => e.userRating)).sum : ℤ) / (recent.length : ℚ)

/-- Mean user rating of all learning entries before the most recent five. -/
def olderAvgRating (ld : List LearningEntry) : ℚ :=
  let older := ld.take (ld.length - 5)
  ((older.map (fun e => e.userRating)).sum : ℤ) / (older.length : ℚ)

/-- `_analyze_recent_trends`: insufficient data below five entries or without
entries older than the most recent five; otherwise `improving` exactly when
the recent mean strictly exceeds the older mean, else `declining`. -/
def analyzeRecentTrends (ld : List LearningEntry) : TrendResult :=
  if ld.length < 5 then
    { trend := "insufficient_data", recentAvgRating := none,
      previousAvgRating := none, change := none }
  else
    let older := ld.take (ld.length - 5)
    if older.isEmpty then
      { trend := "insufficient_data", recentAvgRating := none,
        previousAvgRating := none, change := none }
    else
      let r := recentAvgRating ld
      let o := olderAvgRating ld
      { trend := if o < r then "improving" else "declining",
        recentAvgRating := some r, previousAvgRating := some o,
        change := some (r - o) }

/-- The insight dictionary of `get_learning_insights` (full form). -/
structure InsightsData where
  totalInteractions : Nat
  averageUserRating : ℚ
  averageAccuracy : ℚ
  averageClarity : ℚ
  averageCompleteness : ℚ
  commonImprovements : List (String × Nat)
  recentTrends : TrendResult
deriving Repr, DecidableEq

/-- `get_learning_insights`: `none` models the no-data dictionary; otherwise
running means over all entries, the five most frequent improvement tags read
from each entry's (never written) `improvements` key, and the recent trend. -/
def getLearningInsights (ld : List LearningEntry) : Option InsightsData :=
  if ld.isEmpty then none
  else
    let n : ℚ := (ld.length : ℚ)
    let allImprovements := ld.flatMap (fun e => e.improvements.getD [])
    some
      { totalInteractions := ld.length,
        averageUserRating := (((ld.map (fun e => e.userRating)).sum : ℤ) : ℚ) / n,
        averageAccuracy := (ld.map (fun e => e.evaluation.accuracy)).sum / n,
        averageClarity := (ld.map (fun e => e.evaluation.clarity)).sum / n,
        averageCompleteness := (ld.map (fun e => e.evaluation.completeness)).sum / n,
        commonImprovements := (sortByCountDesc (tallyTags allImprovements [])).take 5,
        recentTrends := analyzeRecentTrends ld }

/-- C1: For every question and every ranked candidate list returned by the
knowledge-base backend, a top score strictly above 0.8 routes to the
knowledge base at that score as confidence; otherwise a top score strictly
above 0.5 with question complexity strictly below 0.6 routes to the
knowledge base at that score; every other case, the empty candidate list
included, routes to web search at the fixed confidence 0.7. -/
theorem routing_decision_threshold_cases (search : String → List KBResult) (q : String) :
    (∀ top rest, search q = top :: rest →
      ((8 / 10 < top.score →
          (makeRoutingDecision search q).decision = RouteDecision.knowledgeBase ∧
          (makeRoutingDecision search q).confidence = top.score) ∧
        (¬ 8 / 10 < top.score → 1 / 2 < top.score →
          assessQuestionComplexity q < 3 / 5 →
          (makeRoutingDecision search q).decision = RouteDecision.knowledgeBase ∧
          (makeRoutingDecision search q).confidence = top.score) ∧
        (¬ 8 / 10 < top.score →
          ¬ (1 / 2 < top.score ∧ assessQuestionComplexity q < 3 / 5) →
          (makeRoutingDecision search q).decision = RouteDecision.webSearch ∧
          (makeRoutingDecision search q).confidence = 7 / 10))) ∧
    (search q = [] →
      (makeRoutingDecision search q).decision = RouteDecision.webSearch ∧
      (makeRoutingDecision search q).confidence = 7 / 10) := by
  constructor
  · intro top rest hq
    refine ⟨fun h1 => ?_, fun h1 h2 h3 => ?_, fun h1 h2 => ?_⟩
    · simp [makeRoutingDecision, routeFromResults, hq, h1]
    · simp only [makeRoutingDecision, routeFromResults, hq]
      rw [if_neg h1, if_pos ⟨h2, h3⟩]
      exact ⟨rfl, rfl⟩
    · simp only [makeRoutingDecision, routeFromResults, hq]
      rw [if_neg h1, if_neg h2]
      exact ⟨rfl, rfl⟩
  · intro hq
    simp [makeRoutingDecision, routeFromResults, hq]

/-- C1 witness: a backend whose top score is 0.81 routes the question to the
knowledge base with confidence 0.81. -/
theorem routing_decision_threshold_cases_witness :
    (makeRoutingDecision
        (fun _ => [{ score := 81 / 100,
                     content := { answer := "a", solutionStepsText := none,
                                  solutionStepsList := [], explanation := "e" } }])
        "x").decision = RouteDecision.knowledgeBase ∧
    (makeRoutingDecision
        (fun _ => [{ score := 81 / 100,
                     content := { answer := "a", solutionStepsText := none,
                                  solutionStepsList := [], explanation := "e" } }])
        "x").confidence = 81 / 100 :=
  ((routing_decision_threshold_cases
      (fun _ => [{ score := 81 / 100,
                   content := { answer := "a", solutionStepsText := none,
                                solutionStepsList := [], explanation := "e" } }])
      "x").1 _ _ rfl).1 (by norm_num)

/-- C7: With the web-search backend returning zero documents, the assembled
response carries confidence exactly 0, the fixed apology answer and source
`web_search`, and the generative model is not called. -/
theorem web_zero_docs_apology (gemini : String → String → GeminiOutcome)
    (gSteps : String → List String) (gAnswer : String → String)
    (lSteps : List String → List String) (lAnswer : List String → String)
    (lExpl : List String → String) (q sid ts : String) :
    (generateWebResponse [] gemini gSteps gAnswer lSteps lAnswer lExpl q sid ts).1.confidence = 0 ∧
    (generateWebResponse [] gemini gSteps gAnswer lSteps lAnswer lExpl q sid ts).1.answer = apologyAnswer ∧
    (generateWebResponse [] gemini gSteps gAnswer lSteps lAnswer lExpl q sid ts).1.source = "web_search" ∧
    (generateWebResponse [] gemini gSteps gAnswer lSteps lAnswer lExpl q sid ts).2 = false :=
  ⟨rfl, rfl, rfl, rfl⟩

/-- C6: The learning trend is `insufficient_data` with five or fewer recorded
interactions (fewer than five in total, or none earlier than the most recent
five); with more than five, it is `improving` exactly when the mean rating
of the most recent five strictly exceeds the mean of all earlier ones, and
`declining` otherwise. -/
theorem trend_classification (ld : List LearningEntry) :
    (ld.length ≤ 5 →
      analyzeRecentTrends ld =
        { trend := "insufficient_data", recentAvgRating := none,
          previousAvgRating := none, change := none }) ∧
    (5 < ld.length →
      (analyzeRecentTrends ld).trend =
        if olderAvgRating ld < recentAvgRating ld then "improving" else "declining") := by
  constructor
  · intro h
    unfold analyzeRecentTrends
    by_cases h5 : ld.length < 5
    · simp [h5]
    · have hlen : ld.length - 5 = 0 := by omega
      simp [h5, hlen]
  · intro h
    have h5 : ¬ ld.length < 5 := by omega
    have hne : (ld.take (ld.length - 5)).isEmpty = false := by
      have hlt : (ld.take (ld.length - 5)).length = ld.length - 5 := by
        rw [List.length_take]
        omega
      cases hemp : (ld.take (ld.length - 5)).isEmpty
      · rfl
      · exfalso
        have h0 := List.isEmpty_iff.mp hemp
        rw [h0] at hlt
        simp at hlt
        omega
    unfold analyzeRecentTrends
    simp [h5, hne]

/-- The neutral evaluation produced by the evaluator's fallback path. -/
def neutralEval : Evaluation :=
  { accuracy := 1 / 2, clarity := 1 / 2, completeness := 1 / 2,
    overallScore := 1 / 2, evaluationText := "Fallback evaluation",
    needsImprovement := [] }

/-- A learning entry with a given user rating and neutral evaluation. -/
def entryWithRating (r : ℤ) : LearningEntry :=
  { question := "q", response := "r", userRating := r, userComments := "",
    evaluation := neutralEval, timestamp := "t", sessionId := "s" }

/-- C6 witness: six interactions whose last five all carry rating 5 and whose
first carries rating 1 classify as `improving`. -/
theorem trend_classification_witness :
    5 < (([1, 5, 5, 5, 5, 5] : List ℤ).map entryWithRating).length ∧
    (analyzeRecentTrends (([1, 5, 5, 5, 5, 5] : List ℤ).map entryWithRating)).trend
      = "improving" := by
  refine ⟨by decide, ?_⟩
  rw [(trend_classification (([1, 5, 5, 5, 5, 5] : List ℤ).map entryWithRating)).2 (by decide)]
  rw [if_pos]
  norm_num [olderAvgRating, recentAvgRating, entryWithRating]

/-- The concrete text separating the two deny-lists: the word `exploit` is on
the input list but not on the output list, and the rest of the text carries
enough step and math structure to clear the output guardrail's floors. -/
def cexText : String := "exploit step 1 we have x = 2 + 2 therefore first result is 4"

/-- Every hit of the output deny-list is a hit of the input deny-list: the
output word list is a subset of the input word list and the injection
patterns coincide. -/
theorem outputDeny_imp_inputDeny (s : String) (h : outputDenyMatch s = true) :
    inputDenyMatch s = true := by
  unfold outputDenyMatch at h
  unfold inputDenyMatch
  rw [Bool.or_eq_true] at h ⊢
  rcases h with h | h
  · left
    unfold hasWordCI at h ⊢
    rw [List.any_eq_true] at h ⊢
    obtain ⟨t, ht, hw⟩ := h
    refine ⟨t, ht, ?_⟩
    rw [List.any_eq_true] at hw ⊢
    obtain ⟨w, hwmem, hbeq⟩ := hw
    have hsub : ∀ x ∈ outputInappropriateWords, x ∈ inputHarmfulWords := by decide
    exact ⟨w, hsub w hwmem, hbeq⟩
  · right
    exact h

/-- C2 counterexample: the text `exploit step 1 we have x = 2 + 2 therefore
first result is 4` matches the input guardrail's deny-list (so the input
guardrail rejects it), yet the output guardrail — within the length limit —
accepts the very same text, refuting the claim that both guardrails reject
via the same deny-list. -/
theorem guardrail_denylists_differ_cex :
    inputDenyMatch cexText = true ∧
    (validateInput cexText).isValid = false ∧
    cexText.length ≤ maxOutputLength ∧
    (validateOutput cexText "").isValid = true := by
  refine ⟨rfl, rfl, by decide, ?_⟩
  have hconf : calculateConfidenceScore cexText "" = 1 := by
    unfold calculateConfidenceScore
    simp only [show countQuality1 cexText = 1 from rfl,
      show countWordsCI ["therefore", "thus", "hence", "so", "because", "since"] cexText = 1 from rfl,
      show countPhrasesCI ["we have", "we get", "we obtain", "we find"] cexText = 1 from rfl,
      show countCharClass ['=', '+', '-', '*', '/'] cexText = 2 from rfl,
      show countLatex cexText = 0 from rfl,
      show countDigitRuns cexText = 4 from rfl,
      show countWordsCS ["x", "y", "z", "a", "b", "c"] cexText = 1 from rfl,
      show countStepNum cexText = 1 from rfl,
      show countSubstrCI "first" cexText = 1 from rfl,
      show countSubstrCI "second" cexText = 0 from rfl,
      show countSubstrCI "third" cexText = 0 from rfl,
      show countSubstrCI "next" cexText = 0 from rfl,
      show countSubstrCI "finally" cexText = 0 from rfl,
      List.map, List.sum]
    norm_num [min_def]
  have hedu : calculateEducationalValue cexText = 7 / 10 := by
    unfold calculateEducationalValue
    simp only [show countWordsCI ["because", "since", "therefore", "thus", "hence", "so"] cexText = 1 from rfl,
      show countPhrasesCI ["we have", "we get", "we obtain", "we find", "we can see"] cexText = 1 from rfl,
      show countPhrasesCI ["let's", "let us", "first", "second", "third"] cexText = 1 from rfl,
      show countLatex cexText = 0 from rfl,
      show countCharClass ['=', '+', '-', '*', '/'] cexText = 2 from rfl,
      show countCharClass ['^'] cexText = 0 from rfl,
      show countUnderscoreRuns cexText.toList = 0 from rfl,
      show hasStepNum cexText = true from rfl,
      List.map, List.sum, if_true]
    norm_num [min_def]
  unfold validateOutput
  rw [if_neg (by decide), if_neg (by decide)]
  simp only [show sanitizeText cexText = cexText from rfl, hconf, hedu]
  norm_num

/-- C2 amended: for every text matching the output guardrail's deny-list
(whose word list is a strict subset of the input guardrail's), both
guardrails reject: the input guardrail rejects it outright, and the output
guardrail rejects it whenever it is within the output length limit.  Texts
matching only the input-exclusive words `exploit` or `bypass` are rejected by
the input guardrail alone. -/
theorem shared_denylist_rejected_by_both (s q : String)
    (h : outputDenyMatch s = true) :
    (validateInput s).isValid = false ∧
    (s.length ≤ maxOutputLength → (validateOutput s q).isValid = false) := by
  have hin := outputDeny_imp_inputDeny s h
  constructor
  · unfold validateInput
    by_cases hl : maxInputLength < s.length
    · rw [if_pos hl]
    · rw [if_neg hl, if_pos hin]
  · intro hlen
    unfold validateOutput
    have hl2 : ¬ maxOutputLength < s.length := by omega
    rw [if_neg hl2, if_pos h]

/-- C2 amended witness: the text `use a hack` matches the output deny-list
and is rejected by both guardrails. -/
theorem shared_denylist_rejected_by_both_witness :
    outputDenyMatch "use a hack" = true ∧
    (validateInput "use a hack").isValid = false ∧
    (validateOutput "use a hack" "").isValid = false :=
  ⟨rfl, (shared_denylist_rejected_by_both "use a hack" "" rfl).1,
    (shared_denylist_rejected_by_both "use a hack" "" rfl).2 (by decide)⟩

/-- A text whose sanitized form scores above the math-likelihood threshold
(operators, numbers and variables) while hitting no topic keyword at all. -/
def zeroHitText : String := "1 2 3 4 5 6 7 8 9 10 + + + + + + + + + + x y z a b c d e f g"

/-- C3 counterexample: an accepted input with zero keyword hits for every
topic of the table is classified as `algebra` — the first table entry wins
the all-zero argmax — not as `general`. -/
theorem topic_zero_hits_not_general_cex :
    (validateInput zeroHitText).isValid = true ∧
    (∀ p ∈ topicKeywordTable, topicHitCount p.2 (sanitizeText zeroHitText) = 0) ∧
    (validateInput zeroHitText).detectedTopic = "algebra" := by
  refine ⟨rfl, by decide, ?_⟩
  have hms : calculateMathScore (sanitizeText zeroHitText) = 1 / 2 := by
    unfold calculateMathScore
    rw [show mathPatternCounts (sanitizeText zeroHitText) = [0, 0, 0, 10, 10, 10] from rfl]
    norm_num [List.map, List.sum, min_def]
  unfold validateInput
  rw [if_neg (by decide), if_neg (by decide)]
  simp only [hms]
  rw [if_pos (by norm_num)]
  rfl

/-- C3 amended: for every input passing the hard checks whose sanitized text
has zero keyword hits for every topic, the detected topic is `algebra` (the
first table entry) when the math-likelihood score exceeds 0.3, and `general`
otherwise — never `general` across the board. -/
theorem topic_zero_hits_classification (s : String)
    (hv : (validateInput s).isValid = true)
    (hz : ∀ p ∈ topicKeywordTable, topicHitCount p.2 (sanitizeText s) = 0) :
    (validateInput s).detectedTopic =
      (if 3 / 10 < calculateMathScore (sanitizeText s) then "algebra" else "general") := by
  have htopic : detectMathTopic (sanitizeText s) = "algebra" := by
    have h1 := hz ("algebra", ["equation", "variable", "solve", "factor", "polynomial"])
      (by simp [topicKeywordTable])
    have h2 := hz ("calculus", ["derivative", "integral", "limit", "differentiate", "integrate"])
      (by simp [topicKeywordTable])
    have h3 := hz ("geometry", ["triangle", "circle", "angle", "area", "perimeter", "volume"])
      (by simp [topicKeywordTable])
    have h4 := hz ("trigonometry", ["sin", "cos", "tan", "angle", "trigonometric"])
      (by simp [topicKeywordTable])
    have h5 := hz ("statistics", ["mean", "median", "mode", "probability", "distribution"])
      (by simp [topicKeywordTable])
    have h6 := hz ("linear_algebra", ["matrix", "vector", "determinant", "eigenvalue"])
      (by simp [topicKeywordTable])
    unfold detectMathTopic
    simp only [topicKeywordTable, List.map]
    rw [h1, h2, h3, h4, h5, h6]
    simp [firstArgmax]
  by_cases hlen : maxInputLength < s.length
  · exfalso
    unfold validateInput at hv
    rw [if_pos hlen] at hv
    simp at hv
  · by_cases hdeny : inputDenyMatch s = true
    · exfalso
      unfold validateInput at hv
      rw [if_neg hlen, if_pos hdeny] at hv
      simp at hv
    · unfold validateInput
      rw [if_neg hlen, if_neg hdeny]
      simp only [htopic]

/-- C3 amended witness: the all-zero-hit text above scores 0.5 on
math-likelihood, so its detected topic evaluates to `algebra`. -/
theorem topic_zero_hits_classification_witness :
    (validateInput zeroHitText).isValid = true ∧
    (∀ p ∈ topicKeywordTable, topicHitCount p.2 (sanitizeText zeroHitText) = 0) ∧
    (validateInput zeroHitText).detectedTopic =
      (if 3 / 10 < calculateMathScore (sanitizeText zeroHitText) then "algebra" else "general") :=
  ⟨rfl, by decide, topic_zero_hits_classification zeroHitText rfl (by decide)⟩

/-- A constant evaluator returning the neutral fallback evaluation. -/
def evalFn0 : String → String → Evaluation := fun _ _ => neutralEval

/-- The initial learning-system state. -/
def learnState0 : LearningSystemState := { feedbackHistory := [], learningData := [] }

/-- The learning-system state after `n` identical rating-1 interactions. -/
def runFeedback (n : Nat) : LearningSystemState :=
  (List.range n).foldl
    (fun st _ => (processFeedback evalFn0 st "q" "r" 1 "" "sid" "ts").1) learnState0

/-- C4 (code bug): `process_feedback` generates and returns improvement tags
— five of them for a rating-1 interaction under the neutral evaluation — but
never stores them on the learning entry, so after six such interactions
`get_learning_insights` reports an empty `common_improvements` tally instead
of the five most frequent tags. -/
theorem common_improvements_always_empty :
    (processFeedback evalFn0 learnState0 "q" "r" 1 "" "sid" "ts").2.2 =
      ["improve_accuracy", "add_more_explanations", "verify_mathematical_correctness",
        "simplify_explanations", "add_more_steps"] ∧
    (runFeedback 6).learningData.length = 6 ∧
    (getLearningInsights (runFeedback 6).learningData).map
        (fun d => d.commonImprovements) = some [] := by
  refine ⟨?_, rfl, rfl⟩
  show generateImprovements 1 neutralEval "" = _
  unfold generateImprovements neutralEval
  norm_num [show containsSubstr "confusing" "" = false from rfl,
    show containsSubstr "incomplete" "" = false from rfl,
    show containsSubstr "wrong" "" = false from rfl, dedupFirst]
  decide

/-- The raw question of the C5 counterexample: its sanitized form drops the
quotation marks and therefore differs from the raw text. -/
def rawQ : String := "solve \"x + 1 = 3\""

/-- A high-scoring knowledge-base candidate. -/
def kbHit : KBResult :=
  { score := 9 / 10,
    content := { answer := "x = 2", solutionStepsText := none,
                 solutionStepsList := ["subtract 1 from both sides"],
                 explanation := "linear equation" } }

/-- A knowledge-base backend that recognizes only the raw question text. -/
def rawOnlySearch : String → List KBResult := fun s => if s = rawQ then [kbHit] else []

/-- C5 counterexample: for an accepted question whose sanitized text differs
from the raw text, the routing policy routes via the backend's answer at the
RAW question (knowledge base here), while a backend queried at the sanitized
text — as the claim asserts — would return nothing and route to web search. -/
theorem kb_query_uses_raw_question_cex :
    (validateInput rawQ).isValid = true ∧
    sanitizeText rawQ ≠ rawQ ∧
    rawOnlySearch (sanitizeText rawQ) = [] ∧
    (makeRoutingDecision rawOnlySearch rawQ).decision = RouteDecision.knowledgeBase ∧
    (makeRoutingDecision (fun qq => rawOnlySearch (sanitizeText qq)) rawQ).decision
      = RouteDecision.webSearch := by
  refine ⟨rfl, by decide, rfl, ?_, rfl⟩
  simp only [makeRoutingDecision, show rawOnlySearch rawQ = [kbHit] from rfl,
    routeFromResults]
  rw [if_pos (by norm_num [kbHit])]

/-- C5 amended: the routing pipeline depends on the knowledge-base backend
only through its value at the raw question text — two backends agreeing on
the raw question yield identical pipeline results, whatever they return for
the sanitized text. -/
theorem process_depends_on_search_at_raw_only
    (search1 search2 : String → List KBResult) (ws : String → List WebDoc)
    (gem : String → String → GeminiOutcome) (gS : String → List String)
    (gA : String → String) (lS : List String → List String)
    (lA : List String → String) (lE : List String → String)
    (sid ts q : String) (h : search1 q = search2 q) :
    processQuestion search1 ws gem gS gA lS lA lE sid ts q =
      processQuestion search2 ws gem gS gA lS lA lE sid ts q := by
  unfold processQuestion makeRoutingDecision
  rw [h]

/-- C5 amended witness: a backend answering only the raw question and a
backend answering every query alike agree at the raw question, so the
pipeline results coincide. -/
theorem process_depends_on_search_at_raw_only_witness :
    rawOnlySearch rawQ = (fun _ => [kbHit]) rawQ ∧
    processQuestion rawOnlySearch (fun _ => []) (fun _ _ => ⟨false, "", 0⟩)
        (fun _ => []) (fun _ => "") (fun c => c) (fun _ => "") (fun _ => "")
        "sid" "ts" rawQ =
      processQuestion (fun _ => [kbHit]) (fun _ => []) (fun _ _ => ⟨false, "", 0⟩)
        (fun _ => []) (fun _ => "") (fun c => c) (fun _ => "") (fun _ => "")
        "sid" "ts" rawQ :=
  ⟨rfl,
    process_depends_on_search_at_raw_only rawOnlySearch (fun _ => [kbHit])
      (fun _ => []) (fun _ _ => ⟨false, "", 0⟩) (fun _ => []) (fun _ => "")
      (fun c => c) (fun _ => "") (fun _ => "") "sid" "ts" rawQ rfl⟩

/-- Replaying a list of records through `collect_feedback` appends them in
order. -/
theorem foldl_collectFeedback (entries acc : List FeedbackData) :
    entries.foldl
        (fun h e => (collectFeedback h e.question e.response e.userRating
          e.userComments e.sessionId e.timestamp).1) acc = acc ++ entries := by
  induction entries generalizing acc with
  | nil => simp
  | cons e es ih =>
    rw [List.foldl_cons, ih]
    show (acc ++ [e]) ++ es = acc ++ e :: es
    simp

/-- With every element between 1 and 5, the five per-value counts add up to
the length. -/
theorem count_one_to_five (l : List ℤ) (h : ∀ r ∈ l, 1 ≤ r ∧ r ≤ 5) :
    l.count 1 + l.count 2 + l.count 3 + l.count 4 + l.count 5 = l.length := by
  induction l with
  | nil => simp
  | cons r rs ih =>
    have hr := h r (by simp)
    have hrs : ∀ x ∈ rs, 1 ≤ x ∧ x ≤ 5 := fun x hx => h x (by simp [hx])
    have hih := ih hrs
    have hcase : r = 1 ∨ r = 2 ∨ r = 3 ∨ r = 4 ∨ r = 5 := by omega
    rcases hcase with h1 | h1 | h1 | h1 | h1 <;> subst h1 <;>
      simp [List.count_cons] <;> omega

/-- C8: Recording any non-empty sequence of feedback entries with ratings in
1..5 and then summarizing yields a total equal to the number of entries, an
average equal to the arithmetic mean of the recorded ratings, and a rating
histogram over 1..5 summing to the number of entries. -/
theorem feedback_summary_roundtrip (entries : List FeedbackData)
    (hne : entries ≠ [])
    (hr : ∀ e ∈ entries, 1 ≤ e.userRating ∧ e.userRating ≤ 5) :
    (getFeedbackSummary (entries.foldl
        (fun h e => (collectFeedback h e.question e.response e.userRating
          e.userComments e.sessionId e.timestamp).1) [])).totalFeedback
      = entries.length ∧
    (getFeedbackSummary (entries.foldl
        (fun h e => (collectFeedback h e.question e.response e.userRating
          e.userComments e.sessionId e.timestamp).1) [])).averageRating
      = (((entries.map (fun e => e.userRating)).sum : ℤ) : ℚ) / (entries.length : ℚ) ∧
    ∃ d, (getFeedbackSummary (entries.foldl
        (fun h e => (collectFeedback h e.question e.response e.userRating
          e.userComments e.sessionId e.timestamp).1) [])).ratingDistribution = some d ∧
      (d.map (fun p => p.2)).sum = entries.length := by
  rw [foldl_collectFeedback entries []]
  simp only [List.nil_append]
  have hne' : entries.isEmpty = false := by
    cases entries with
    | nil => exact absurd rfl hne
    | cons e es => rfl
  unfold getFeedbackSummary
  rw [if_neg (by rw [hne']; exact Bool.false_ne_true)]
  refine ⟨rfl, by simp, ?_⟩
  refine ⟨_, rfl, ?_⟩
  have hr' : ∀ x ∈ entries.map (fun e => e.userRating), 1 ≤ x ∧ x ≤ 5 := by
    intro x hx
    obtain ⟨e, he, hex⟩ := List.mem_map.mp hx
    rw [← hex]
    exact hr e he
  have hc := count_one_to_five (entries.map (fun e => e.userRating)) hr'
  simp only [List.map_cons, List.map_nil, List.sum_cons, List.sum_nil]
  rw [List.length_map] at hc
  omega

/-- Two concrete feedback records with ratings 4 and 5. -/
def sampleFeedback : List FeedbackData :=
  [ { question := "q1", response := "r1", userRating := 4, userComments := "",
      timestamp := "t1", sessionId := "s1" },
    { question := "q2", response := "r2", userRating := 5, userComments := "",
      timestamp := "t2", sessionId := "s2" } ]

/-- C8 witness: replaying the two sample records yields a summary with total
2, average 9/2 and a histogram summing to 2. -/
theorem feedback_summary_roundtrip_witness :
    (getFeedbackSummary (sampleFeedback.foldl
        (fun h e => (collectFeedback h e.question e.response e.userRating
          e.userComments e.sessionId e.timestamp).1) [])).totalFeedback
      = sampleFeedback.length ∧
    (getFeedbackSummary (sampleFeedback.foldl
        (fun h e => (collectFeedback h e.question e.response e.userRating
          e.userComments e.sessionId e.timestamp).1) [])).averageRating
      = (((sampleFeedback.map (fun e => e.userRating)).sum : ℤ) : ℚ)
          / (sampleFeedback.length : ℚ) ∧
    ∃ d, (getFeedbackSummary (sampleFeedback.foldl
        (fun h e => (collectFeedback h e.question e.response e.userRating
          e.userComments e.sessionId e.timestamp).1) [])).ratingDistribution = some d ∧
      (d.map (fun p => p.2)).sum = sampleFeedback.length :=
  feedback_summary_roundtrip sampleFeedback (by decide) (by decide)

/-- C9: On startup, a missing, empty (after stripping) or JSON-malformed
feedback log yields an empty in-memory history and a rewrite of the log to
the empty JSON array, with no error propagated. -/
theorem load_history_resilient (file : Option String) (parse : String → LogParse)
    (h : file = none ∨ ∃ raw, file = some raw ∧
      (pyStrip raw = "" ∨ parse (pyStrip raw) = LogParse.badJson)) :
    loadFeedbackHistory file parse = ([], some "[]") := by
  rcases h with h | ⟨raw, hf, hcase⟩
  · subst h
    rfl
  · subst hf
    show (if pyStrip raw = "" then (([], some "[]") : List FeedbackData × Option String)
          else match parse (pyStrip raw) with
            | LogParse.badJson => ([], some "[]")
            | LogParse.ok records => (records, none)
            | LogParse.badItems => ([], none)) = ([], some "[]")
    by_cases he : pyStrip raw = ""
    · rw [if_pos he]
    · rw [if_neg he]
      rcases hcase with hc | hc
      · exact absurd hc he
      · rw [hc]

/-- C9 witness: a malformed log, a missing log and a whitespace-only log all
reset the store to the empty history and the empty JSON array. -/
theorem load_history_resilient_witness :
    loadFeedbackHistory (some "nonsense json ]") (fun _ => LogParse.badJson)
      = ([], some "[]") ∧
    loadFeedbackHistory none (fun _ => LogParse.badJson) = ([], some "[]") ∧
    loadFeedbackHistory (some "   ") (fun _ => LogParse.badJson) = ([], some "[]") :=
  ⟨load_history_resilient _ _ (Or.inr ⟨_, rfl, Or.inr rfl⟩),
    load_history_resilient _ _ (Or.inl rfl),
    load_history_resilient _ _ (Or.inr ⟨_, rfl, Or.inl rfl⟩)⟩

/-- The routing policy's two reachable outcomes: a knowledge-base decision
always carries a non-empty candidate payload, and a web-search decision
carries none; `reject` is never produced. -/
theorem routeFromResults_shape (kb : List KBResult) (q : String) :
    ((routeFromResults kb q).decision = RouteDecision.knowledgeBase ∧
      ∃ top rest, (routeFromResults kb q).data = some (top :: rest)) ∨
    ((routeFromResults kb q).decision = RouteDecision.webSearch ∧
      (routeFromResults kb q).data = none) := by
  cases kb with
  | nil => exact Or.inr ⟨rfl, rfl⟩
  | cons top rest =>
    simp only [routeFromResults]
    by_cases h1 : (8 : ℚ) / 10 < top.score
    · rw [if_pos h1]
      exact Or.inl ⟨rfl, top, rest, rfl⟩
    · rw [if_neg h1]
      by_cases h2 : (1 : ℚ) / 2 < top.score ∧ assessQuestionComplexity q < 3 / 5
      · rw [if_pos h2]
        exact Or.inl ⟨rfl, top, rest, rfl⟩
      · rw [if_neg h2]
        exact Or.inr ⟨rfl, rfl⟩

/-- Both hard-reject branches of the output guardrail leave the sanitized
output empty. -/
theorem hardReject_sanitized_empty (a q : String)
    (h : maxOutputLength < a.length ∨ outputDenyMatch a = true) :
    (validateOutput a q).sanitizedOutput = "" := by
  unfold validateOutput
  by_cases hl : maxOutputLength < a.length
  · rw [if_pos hl]
  · rcases h with h | h
    · exact absurd h hl
    · rw [if_neg hl, if_pos h]

/-- C10: For every question accepted by the input guardrail, the pipeline
returns success regardless of the output guardrail's validity verdict; and
whenever the output guardrail hard-rejects the generated answer (length
overflow or deny-list hit), its sanitized output is empty, so the original
generated response is returned unchanged. -/
theorem process_success_and_answer_kept
    (kbSearch : String → List KBResult) (ws : String → List WebDoc)
    (gem : String → String → GeminiOutcome) (gS : String → List String)
    (gA : String → String) (lS : List String → List String)
    (lA : List String → String) (lE : List String → String)
    (sid ts q : String)
    (hv : (validateInput q).isValid = true) :
    (processQuestion kbSearch ws gem gS gA lS lA lE sid ts q).success = true ∧
    (∀ resp : MathResponse,
      (if (makeRoutingDecision kbSearch q).decision = RouteDecision.knowledgeBase then
          generateKbResponse q (makeRoutingDecision kbSearch q) sid ts
        else some (generateWebResponse (ws q) gem gS gA lS lA lE q sid ts).1) = some resp →
      (maxOutputLength < resp.answer.length ∨ outputDenyMatch resp.answer = true) →
      (processQuestion kbSearch ws gem gS gA lS lA lE sid ts q).response = some resp) := by
  have hshape : ((makeRoutingDecision kbSearch q).decision = RouteDecision.knowledgeBase ∧
      ∃ top rest, (makeRoutingDecision kbSearch q).data = some (top :: rest)) ∨
      ((makeRoutingDecision kbSearch q).decision = RouteDecision.webSearch ∧
        (makeRoutingDecision kbSearch q).data = none) :=
    routeFromResults_shape (kbSearch q) q
  have hnr : ¬ (makeRoutingDecision kbSearch q).decision = RouteDecision.reject := by
    rcases hshape with ⟨hd, _⟩ | ⟨hd, _⟩ <;> rw [hd] <;> simp
  have hgen : ∃ resp, (if (makeRoutingDecision kbSearch q).decision = RouteDecision.knowledgeBase then
      generateKbResponse q (makeRoutingDecision kbSearch q) sid ts
    else some (generateWebResponse (ws q) gem gS gA lS lA lE q sid ts).1) = some resp := by
    rcases hshape with ⟨hd, top, rest, hdata⟩ | ⟨hd, _⟩
    · rw [if_pos hd]
      unfold generateKbResponse
      rw [hdata]
      exact ⟨_, rfl⟩
    · rw [if_neg (by rw [hd]; simp)]
      exact ⟨_, rfl⟩
  obtain ⟨resp0, hr0⟩ := hgen
  have hproc : processQuestion kbSearch ws gem gS gA lS lA lE sid ts q =
      { success := true, error := none,
        response := some { resp0 with answer :=
          (if (validateOutput resp0.answer q).sanitizedOutput ≠ "" then
            (validateOutput resp0.answer q).sanitizedOutput else resp0.answer) },
        routingDecision := some (makeRoutingDecision kbSearch q).decision,
        routingConfidence := some (makeRoutingDecision kbSearch q).confidence,
        outputWarnings := (validateOutput resp0.answer q).warnings } := by
    simp only [processQuestion, hv, Bool.not_true]
    rw [if_neg (fun hc => Bool.false_ne_true hc), if_neg hnr, hr0]
  constructor
  · rw [hproc]
  · intro resp hresp hhard
    have heq : resp0 = resp := Option.some.inj (hr0.symm.trans hresp)
    subst heq
    have hsan := hardReject_sanitized_empty resp0.answer q hhard
    rw [hproc]
    simp [hsan]

/-- A knowledge-base candidate whose stored answer trips the output
deny-list. -/
def kbBad : KBResult :=
  { score := 9 / 10,
    content := { answer := "use a hack", solutionStepsText := none,
                 solutionStepsList := ["flag the misuse"], explanation := "e" } }

/-- The response assembled from that candidate. -/
def respBad : MathResponse :=
  { question := "what is 2 + 2", answer := "use a hack",
    solutionSteps := ["flag the misuse"], explanation := "e",
    source := "knowledge_base", confidence := 9 / 10,
    sessionId := "sid", timestamp := "ts" }

/-- C10 witness: with a deny-listed stored answer, the pipeline still
succeeds and returns the generated answer unchanged. -/
theorem process_success_and_answer_kept_witness :
    (validateInput "what is 2 + 2").isValid = true ∧
    outputDenyMatch "use a hack" = true ∧
    (processQuestion (fun _ => [kbBad]) (fun _ => []) (fun _ _ => ⟨false, "", 0⟩)
        (fun _ => []) (fun _ => "") (fun c => c) (fun _ => "") (fun _ => "")
        "sid" "ts" "what is 2 + 2").success = true ∧
    (processQuestion (fun _ => [kbBad]) (fun _ => []) (fun _ _ => ⟨false, "", 0⟩)
        (fun _ => []) (fun _ => "") (fun c => c) (fun _ => "") (fun _ => "")
        "sid" "ts" "what is 2 + 2").response = some respBad := by
  have hroute : makeRoutingDecision (fun _ => [kbBad]) "what is 2 + 2" =
      { decision := RouteDecision.knowledgeBase, confidence := 9 / 10,
        reasoning := "High confidence match found in knowledge base",
        source := "knowledge_base", data := some [kbBad] } := by
    simp only [makeRoutingDecision, routeFromResults]
    rw [if_pos (by norm_num [kbBad])]
    rfl
  have hgen : (if (makeRoutingDecision (fun _ => [kbBad]) "what is 2 + 2").decision
        = RouteDecision.knowledgeBase then
      generateKbResponse "what is 2 + 2"
        (makeRoutingDecision (fun _ => [kbBad]) "what is 2 + 2") "sid" "ts"
    else some (generateWebResponse ((fun _ => []) "what is 2 + 2")
      (fun _ _ => ⟨false, "", 0⟩) (fun _ => []) (fun _ => "") (fun c => c)
      (fun _ => "") (fun _ => "") "what is 2 + 2" "sid" "ts").1) = some respBad := by
    rw [hroute, if_pos rfl]
    rfl
  refine ⟨rfl, rfl, ?_, ?_⟩
  · exact (process_success_and_answer_kept (fun _ => [kbBad]) (fun _ => [])
      (fun _ _ => ⟨false, "", 0⟩) (fun _ => []) (fun _ => "") (fun c => c)
      (fun _ => "") (fun _ => "") "sid" "ts" "what is 2 + 2" rfl).1
  · exact (process_success_and_answer_kept (fun _ => [kbBad]) (fun _ => [])
      (fun _ _ => ⟨false, "", 0⟩) (fun _ => []) (fun _ => "") (fun c => c)
      (fun _ => "") (fun _ => "") "sid" "ts" "what is 2 + 2" rfl).2 respBad hgen
      (Or.inr rfl)
